import Mathlib

/-!
# The GC trace agent (`gc-agent.c`)

A shallow embedding of the JVMTI agent of `src/src-gc-agent/gc-agent.c` and the
properties of its two parts:

* the event recorder `printGCTime`, reached through the two callbacks
  `garbageCollectionStart` and `garbageCollectionFinish`;
* the attach routine `Agent_OnLoad`.

The C code talks to three collaborators: the host runtime (`GetEnv`,
`AddCapabilities`, `SetEventCallbacks`, `SetEventNotificationMode`), the
allocator (`calloc`, `free`) and the C library's file interface (`fopen`,
`fprintf`, `fclose`, `remove`, `clock_gettime`).  What they answer is an input
of the embedding: the status of each host call, whether each allocation returns
a block, the clock reading, whether `fopen` returns a stream or the null
pointer, how much of a written record the file system takes, whether it lets
an existing file be removed.  Every call
that the code makes is written to a list of calls, in program order, so that
"this call is not made" is a statement about that list.

The trace file `profiles/gc.csv` is the only file the code touches; it is
modelled as `Option (List Char)`: absent, or present with its content.
`fprintf` on a stream that `fopen` returned in append mode, followed by
`fclose`, puts at the end of the file the part of the formatted text that the
file system takes: all of it when the write completes, an initial part (maybe
nothing) when the write is cut short or refused; the code reads the result of
neither call.  `fprintf` on the null pointer has no defined behaviour and ends
the call.

Arithmetic on `long` is 64-bit two's complement: results are reduced with
`wrap64`.
-/

set_option linter.unusedVariables false

namespace GcAgent

/-! ## Constants of the host headers -/

/-- Modelled from the spec: `jni.h` is not among the sources; the status a JNI call returns on
success (`0`, the value of the JDK header). -/
def JNI_OK : Int := 0

/-- Modelled from the spec: `jvmti.h` is not among the sources; the "fixed required version
identifier" of step 1 of the attach, with the value of the JDK header. -/
def JVMTI_VERSION_1_0 : Int := 0x30010000

/-- Modelled from the spec: `jvmti.h` is not among the sources; the status "0 = success". -/
def JVMTI_ERROR_NONE : Int := 0

/-- Modelled from the spec: `jvmti.h` is not among the sources; the "version-unsupported code",
distinct from the two other statuses (68 in the JDK header). -/
def JVMTI_ERROR_UNSUPPORTED_VERSION : Int := 68

/-- Modelled from the spec: `jvmti.h` is not among the sources; the "out-of-memory code",
distinct from the two other statuses (110 in the JDK header). -/
def JVMTI_ERROR_OUT_OF_MEMORY : Int := 110

/-- Modelled from the spec: `jvmti.h` is not among the sources; the mode of the
"enable delivery" call (1 in the JDK header). -/
def JVMTI_ENABLE : Int := 1

/-- Modelled from the spec: `jvmti.h` is not among the sources; the event kind
"collector-start" (81 in the JDK header). -/
def JVMTI_EVENT_GARBAGE_COLLECTION_START : Int := 81

/-- Modelled from the spec: `jvmti.h` is not among the sources; the event kind
"collector-finish" (82 in the JDK header). -/
def JVMTI_EVENT_GARBAGE_COLLECTION_FINISH : Int := 82

/-- The macro `GC_TRACE_PATH`. -/
def GC_TRACE_PATH : String := "profiles/gc.csv"

/-! ## Data -/

/-- The trace file: `none` when no file exists at `GC_TRACE_PATH`, else its content. -/
abbrev File := Option (List Char)

/-- The bytes of the trace file, none for an absent file. -/
def content (file : File) : List Char := file.getD []

/-- A `FILE *`: the null pointer, or a stream on the trace file. -/
inductive FILE_ptr
  | NULL
  | stream
deriving DecidableEq, Repr

/-- The capability descriptor (`jvmtiCapabilities`): the one bit-field the agent sets, and
all the other bit-fields of the structure taken together. -/
structure jvmtiCapabilities where
  can_generate_garbage_collection_events : Nat
  others : Nat
deriving DecidableEq, Repr

/-- The two functions of the agent that are installed as callbacks. -/
inductive Handler
  | garbageCollectionStart
  | garbageCollectionFinish
deriving DecidableEq, Repr

/-- The callback table (`jvmtiEventCallbacks`): the two slots the agent fills; every other slot
stays null after `calloc` and is not represented. -/
structure jvmtiEventCallbacks where
  GarbageCollectionStart : Option Handler
  GarbageCollectionFinish : Option Handler
deriving DecidableEq, Repr

/-- A call made by the agent, with the arguments that matter. `stderr` is an `fprintf` on the
standard error stream, with its format and its `%d` argument when it has one. -/
inductive Call
  | GetEnv (version : Int)
  | calloc
  | AddCapabilities (capabilities : jvmtiCapabilities)
  | SetEventCallbacks (callbacks : jvmtiEventCallbacks)
  | SetEventNotificationMode (mode event : Int)
  | free
  | remove (path : String)
  | stderr (format : String) (arg : Option Int)
  | exit (status : Int)
  | clock_gettime
  | fopen (path mode : String)
  | fprintf (f : FILE_ptr) (text : List Char)
  | fclose (f : FILE_ptr)
deriving DecidableEq, Repr

/-- Whether a call is one of the host calls that follow `GetEnv`. -/
def Call.isHostCall : Call → Bool
  | .AddCapabilities _ => true
  | .SetEventCallbacks _ => true
  | .SetEventNotificationMode _ _ => true
  | _ => false

/-- Whether a call registers the callbacks or enables an event notification. -/
def Call.instruments : Call → Bool
  | .SetEventCallbacks _ => true
  | .SetEventNotificationMode _ _ => true
  | _ => false

/-- Whether a call enables an event notification. -/
def Call.isEnable : Call → Bool
  | .SetEventNotificationMode _ _ => true
  | _ => false

/-- Whether a call touches the trace file. -/
def Call.touchesFile : Call → Bool
  | .remove _ => true
  | .fopen _ _ => true
  | .fprintf _ _ => true
  | .fclose _ => true
  | _ => false

/-! ## The C library -/

/-- Reduction of an integer to a signed 64-bit `long`. -/
def wrap64 (x : Int) : Int := (x + 2 ^ 63) % 2 ^ 64 - 2 ^ 63

/-- The conversion `%ld`: a minus sign for a negative value, then the decimal digits. -/
def fmt_ld (x : Int) : List Char :=
  if x < 0 then '-' :: Nat.toDigits 10 x.natAbs else Nat.toDigits 10 x.toNat

/-- The text produced by the format `"%s,%ld\n"`. -/
def fmt_record (type : List Char) (x : Int) : List Char :=
  type ++ ',' :: fmt_ld x ++ ['\n']

/-- `fopen(GC_TRACE_PATH, "ab+")`: when the open succeeds the file exists afterwards (created
empty if it was absent) and writes go to its end; when it fails the result is the null pointer
and the file is untouched. -/
def fopen_ab (ok : Bool) (file : File) : FILE_ptr × File :=
  if ok then (.stream, some (content file)) else (.NULL, file)

/-- The part of a text that reaches the file when the stream is written and closed: the whole
text when the write completes (`none`), only its first `k` bytes when the file system takes no
more (`some k`: full device, size limit, quota, I/O error; `some 0` is a refused write). -/
def taken (limit : Option Nat) (text : List Char) : List Char :=
  match limit with
  | none => text
  | some k => text.take k

/-- `fprintf(f, ...)` followed by the flush of `fclose`, on the trace file: the part of the text
that the file system takes is added at the end. A null stream has no defined behaviour:
`none`. -/
def fprintf (f : FILE_ptr) (text : List Char) (limit : Option Nat) (file : File) :
    Option File :=
  match f with
  | .NULL => none
  | .stream => some (some (content file ++ taken limit text))

/-- `remove(GC_TRACE_PATH)`: fails (`-1`) when there is no file; on an existing file it succeeds
(`0`, the file is gone) unless the file system refuses (`ok = false`), which leaves the file as
it was. -/
def remove (ok : Bool) (file : File) : Int × File :=
  match file with
  | none => (-1, none)
  | some c => if ok then (0, none) else (-1, some c)

/-! ## The event recorder -/

/-- The structure `timespec` filled by `clock_gettime`. -/
structure timespec where
  tv_sec : Int
  tv_nsec : Int
deriving DecidableEq, Repr

/-- What the C library answers during one call of the recorder: the reading of
`clock_gettime(CLOCK_MONOTONIC, _)`, whether `fopen` succeeds, and how much of the record the
file system takes from `fprintf` and `fclose` (`none`: the write completes). -/
structure Tick where
  spec5 : timespec
  fopen_ok : Bool
  write_limit : Option Nat
deriving DecidableEq, Repr

/-- The `%ld` argument of `printGCTime`:
`spec5.tv_sec * (1000 * 1000 * 1000) + spec5.tv_nsec` in `long` arithmetic. -/
def timestamp (spec5 : timespec) : Int :=
  wrap64 (wrap64 (spec5.tv_sec * (1000 * 1000 * 1000)) + spec5.tv_nsec)

/-- The result of one recorder call: whether the call returned to the host (it does not when it
hands a null stream to `fprintf`), the calls made, and the trace file afterwards. -/
structure Recorded where
  returned : Bool
  calls : List Call
  file : File
deriving DecidableEq, Repr

/-- The function `printGCTime`. The results of `fprintf` and `fclose` are not read by the
code. -/
def printGCTime (io : Tick) (type : List Char) (file : File) : Recorded :=
  let spec5 := io.spec5
  let opened := fopen_ab io.fopen_ok file
  let f := opened.1
  let text := fmt_record type (timestamp spec5)
  match fprintf f text io.write_limit opened.2 with
  | none =>
    ⟨false, [.clock_gettime, .fopen GC_TRACE_PATH "ab+", .fprintf f text], opened.2⟩
  | some written =>
    ⟨true, [.clock_gettime, .fopen GC_TRACE_PATH "ab+", .fprintf f text, .fclose f], written⟩

/-- The label passed by `garbageCollectionStart`. -/
def startLabel : List Char := ['S', 't', 'a', 'r', 't', ' ', 'G', 'C']

/-- The label passed by `garbageCollectionFinish`. -/
def endLabel : List Char := ['E', 'n', 'd', ' ', 'G', 'C']

/-- The callback `garbageCollectionStart`. -/
def garbageCollectionStart (io : Tick) (file : File) : Recorded :=
  printGCTime io startLabel file

/-- The callback `garbageCollectionFinish`. -/
def garbageCollectionFinish (io : Tick) (file : File) : Recorded :=
  printGCTime io endLabel file

/-- The host delivers one event to the callback registered for it. -/
def deliver (h : Handler) (io : Tick) (file : File) : Recorded :=
  match h with
  | .garbageCollectionStart => garbageCollectionStart io file
  | .garbageCollectionFinish => garbageCollectionFinish io file

/-- The string literal that the callback passes to `printGCTime` as `type`. -/
def Handler.label : Handler → List Char
  | .garbageCollectionStart => startLabel
  | .garbageCollectionFinish => endLabel

/-- A single-threaded host delivering a sequence of events, one after the other; a call that
does not return ends the run. The result tells whether every call returned, and the file. -/
def run : List (Handler × Tick) → File → Bool × File
  | [], file => (true, file)
  | (h, io) :: rest, file =>
    let r := deliver h io file
    if r.returned then run rest r.file else (false, r.file)

/-- The events of a sequence of collector pauses: for each pause, start then finish. -/
def pauses : List (Tick × Tick) → List (Handler × Tick)
  | [] => []
  | (s, e) :: rest =>
    (.garbageCollectionStart, s) :: (.garbageCollectionFinish, e) :: pauses rest

/-! ## The attach routine -/

/-- What the collaborators answer during one attach: the status returned by each host call, as a
function of its arguments; whether the first (`calloc 0`) and the second (`calloc 1`) allocation
return a block; whether the file system lets an existing trace file be removed. -/
structure Host where
  GetEnv : Int → Int
  calloc : Nat → Bool
  AddCapabilities : jvmtiCapabilities → Int
  SetEventCallbacks : jvmtiEventCallbacks → Int
  SetEventNotificationMode : Int → Int → Int
  remove_ok : Bool

/-- How a call of `Agent_OnLoad` ends: it returns a status to the host, or it ends the process
through `exit`. -/
inductive Outcome
  | returned (status : Int)
  | exited (status : Int)
deriving DecidableEq, Repr

/-- The result of one attach: how it ends, the calls made, and the trace file afterwards. -/
structure Attach where
  outcome : Outcome
  calls : List Call
  file : File
deriving DecidableEq, Repr

/-- The function `Agent_OnLoad`. The arguments `options` and `reserved` are not used by the
code. -/
def Agent_OnLoad (host : Host) (file : File) : Attach :=
  let returnCode := host.GetEnv JVMTI_VERSION_1_0
  let c1 := [Call.GetEnv JVMTI_VERSION_1_0]
  if returnCode ≠ JNI_OK then
    ⟨.returned JVMTI_ERROR_UNSUPPORTED_VERSION,
      c1 ++ [.stderr "The version of JVMTI requested (1.0) is not supported by this JVM.\n" none],
      file⟩
  else
  let c2 := c1 ++ [.calloc]
  if host.calloc 0 = false then
    ⟨.returned JVMTI_ERROR_OUT_OF_MEMORY,
      c2 ++ [.stderr "Unable to allocate memory\n" none], file⟩
  else
  let requiredCapabilities : jvmtiCapabilities :=
    { can_generate_garbage_collection_events := 1, others := 0 }
  if returnCode ≠ JNI_OK then
    ⟨.exited (-1),
      c2 ++ [.stderr "C:\tJVM does not have the required capabilities (%d)\n" (some returnCode),
        .exit (-1)], file⟩
  else
  let returnCode := host.AddCapabilities requiredCapabilities
  let c3 := c2 ++ [.AddCapabilities requiredCapabilities, .calloc]
  if host.calloc 1 = false then
    ⟨.returned JVMTI_ERROR_OUT_OF_MEMORY,
      c3 ++ [.stderr "Unable to allocate memory\n" none], file⟩
  else
  let eventCallbacks : jvmtiEventCallbacks :=
    { GarbageCollectionStart := some .garbageCollectionStart,
      GarbageCollectionFinish := some .garbageCollectionFinish }
  let returnCode := host.SetEventCallbacks eventCallbacks
  let c4 := c3 ++ [.SetEventCallbacks eventCallbacks]
  if returnCode ≠ JNI_OK then
    ⟨.exited (-1),
      c4 ++ [.stderr "C:\tError setting event callbacks (%d)\n" (some returnCode), .exit (-1)],
      file⟩
  else
  let returnCode :=
    host.SetEventNotificationMode JVMTI_ENABLE JVMTI_EVENT_GARBAGE_COLLECTION_START
  let c5 :=
    c4 ++ [.SetEventNotificationMode JVMTI_ENABLE JVMTI_EVENT_GARBAGE_COLLECTION_START]
  if returnCode ≠ JNI_OK then
    ⟨.exited (-1),
      c5 ++ [.stderr
        "C:\tJVM does not have the required capabilities, JVMTI_ENABLE, JVMTI_EVENT_GARBAGE_COLLECTION_START (%d)\n"
        (some returnCode), .exit (-1)], file⟩
  else
  let returnCode :=
    host.SetEventNotificationMode JVMTI_ENABLE JVMTI_EVENT_GARBAGE_COLLECTION_FINISH
  let c6 :=
    c5 ++ [.SetEventNotificationMode JVMTI_ENABLE JVMTI_EVENT_GARBAGE_COLLECTION_FINISH]
  if returnCode ≠ JNI_OK then
    ⟨.exited (-1),
      c6 ++ [.stderr
        "C:\tJVM does not have the required capabilities, JVMTI_ENABLE, JVMTI_EVENT_GARBAGE_COLLECTION_FINISH (%d)\n"
        (some returnCode), .exit (-1)], file⟩
  else
  let removed := remove host.remove_ok file
  ⟨.returned JVMTI_ERROR_NONE, c6 ++ [.free, .free, .remove GC_TRACE_PATH], removed.2⟩

/-! ## Reading the trace file back -/

/-- The texts handed to `fprintf` on the trace stream during a recorder call, in order. -/
def written : List Call → List (List Char)
  | [] => []
  | .fprintf _ text :: rest => text :: written rest
  | _ :: rest => written rest

/-- The lines of a text: each `'\n'` ends a line; text after the last `'\n'` is a line too. -/
def lines : List Char → List (List Char)
  | [] => []
  | c :: cs =>
    if c = '\n' then [] :: lines cs
    else
      match lines cs with
      | [] => [[c]]
      | l :: ls => (c :: l) :: ls

/-- The label of a line: what stands before its first comma. -/
def labelOf (line : List Char) : List Char := line.takeWhile (fun c => c != ',')

/-- The value of a run of decimal digits. -/
def digitsValue (ds : List Char) : Nat :=
  ds.foldl (fun v c => 10 * v + (c.toNat - 48)) 0

/-- A text is one record line: a label of the agent, a comma, one or more decimal digits and
the closing newline, nothing else. -/
def IsRecordLine (text : List Char) : Prop :=
  ∃ label ds : List Char, (label = startLabel ∨ label = endLabel) ∧ ds ≠ [] ∧
    (∀ c ∈ ds, c.isDigit = true) ∧ text = label ++ ',' :: ds ++ ['\n']

/-- The text `Start GC,-9223372036709551616` followed by a newline. -/
def overflowText : List Char :=
  ['S', 't', 'a', 'r', 't', ' ', 'G', 'C', ',', '-', '9', '2', '2', '3', '3', '7', '2', '0',
    '3', '6', '7', '0', '9', '5', '5', '1', '6', '1', '6', '\n']

/-- The text of the records that a sequence of events puts in the file when every `fopen`
succeeds and every write completes. -/
def records : List (Handler × Tick) → List Char
  | [] => []
  | e :: rest => fmt_record e.1.label (timestamp e.2.spec5) ++ records rest

/-- The callback table that `Agent_OnLoad` registers. -/
def agentCallbacks : jvmtiEventCallbacks :=
  { GarbageCollectionStart := some .garbageCollectionStart,
    GarbageCollectionFinish := some .garbageCollectionFinish }

/-- The calls of an attach up to and including `SetEventCallbacks`. -/
def callsToRegistration : List Call :=
  [.GetEnv JVMTI_VERSION_1_0, .calloc, .AddCapabilities ⟨1, 0⟩, .calloc,
    .SetEventCallbacks agentCallbacks]

/-- A trace file left by an earlier run: the one record `Start GC,1`. -/
def priorLog : List Char := ['S', 't', 'a', 'r', 't', ' ', 'G', 'C', ',', '1', '\n']

/-- Two collector pauses, every `fopen` succeeding and every write completing. -/
def twoPauses : List (Tick × Tick) :=
  [(⟨⟨12, 5⟩, true, none⟩, ⟨⟨12, 7⟩, true, none⟩),
    (⟨⟨13, 5⟩, true, none⟩, ⟨⟨14, 7⟩, true, none⟩)]

/-- One collector pause in which both `fopen` succeed and the file system takes only the first
11 bytes of the start record. -/
def cutPause : List (Tick × Tick) :=
  [(⟨⟨12, 5⟩, true, some 11⟩, ⟨⟨12, 7⟩, true, none⟩)]

/-- Hosts used to exercise the attach: every collaborator answers with the given status. -/
def hostWith (getEnv : Int) (alloc0 alloc1 : Bool) (addCaps setCallbacks enableStart
    enableFinish : Int) (removeOk : Bool) : Host where
  GetEnv := fun _ => getEnv
  calloc := fun k => if k = 0 then alloc0 else alloc1
  AddCapabilities := fun _ => addCaps
  SetEventCallbacks := fun _ => setCallbacks
  SetEventNotificationMode := fun _ event =>
    if event = JVMTI_EVENT_GARBAGE_COLLECTION_START then enableStart else enableFinish
  remove_ok := removeOk

/-! ## Decimal digits -/

theorem isDigit_digitChar {m : Nat} (hm : m < 10) : (Nat.digitChar m).isDigit = true := by
  interval_cases m <;> rfl

theorem toNat_digitChar {m : Nat} (hm : m < 10) : (Nat.digitChar m).toNat - 48 = m := by
  interval_cases m <;> rfl

theorem toDigitsCore_isDigit (fuel : Nat) : ∀ (n : Nat) (acc : List Char),
    (∀ c ∈ acc, c.isDigit = true) → ∀ c ∈ Nat.toDigitsCore 10 fuel n acc, c.isDigit = true := by
  induction fuel with
  | zero => intro n acc hacc; simpa [Nat.toDigitsCore] using hacc
  | succ fuel ih =>
    intro n acc hacc
    have hd : (Nat.digitChar (n % 10)).isDigit = true := isDigit_digitChar (Nat.mod_lt _ (by decide))
    have hacc2 : ∀ c ∈ Nat.digitChar (n % 10) :: acc, c.isDigit = true := by
      intro c hc
      rcases List.mem_cons.mp hc with rfl | hc
      · exact hd
      · exact hacc c hc
    simp only [Nat.toDigitsCore]
    split
    · exact hacc2
    · exact ih _ _ hacc2

theorem toDigitsCore_ne_nil (fuel : Nat) : ∀ (n : Nat) (acc : List Char),
    acc ≠ [] → Nat.toDigitsCore 10 fuel n acc ≠ [] := by
  induction fuel with
  | zero => intro n acc hacc; simpa [Nat.toDigitsCore] using hacc
  | succ fuel ih =>
    intro n acc _
    simp only [Nat.toDigitsCore]
    split
    · simp
    · exact ih _ _ (by simp)

theorem toDigitsCore_value (fuel : Nat) : ∀ (n : Nat) (acc : List Char), n < fuel →
    (Nat.toDigitsCore 10 fuel n acc).foldl (fun v c => 10 * v + (c.toNat - 48)) 0 =
      acc.foldl (fun v c => 10 * v + (c.toNat - 48)) n := by
  induction fuel with
  | zero => intro n acc h; exact absurd h (Nat.not_lt_zero _)
  | succ fuel ih =>
    intro n acc hn
    have hm : n % 10 < 10 := Nat.mod_lt _ (by decide)
    simp only [Nat.toDigitsCore]
    split
    · next h0 =>
      have hlt : n < 10 := by omega
      simp only [List.foldl_cons, toNat_digitChar hm]
      congr 1
      omega
    · next h0 =>
      rw [ih (n / 10) _ (by omega)]
      simp only [List.foldl_cons, toNat_digitChar hm]
      congr 1
      omega

theorem toDigits_isDigit (n : Nat) : ∀ c ∈ Nat.toDigits 10 n, c.isDigit = true :=
  toDigitsCore_isDigit _ _ _ (by simp)

theorem toDigits_ne_nil (n : Nat) : Nat.toDigits 10 n ≠ [] := by
  unfold Nat.toDigits
  simp only [Nat.toDigitsCore]
  split
  · simp
  · exact toDigitsCore_ne_nil _ _ _ (by simp)

theorem digitsValue_toDigits (n : Nat) : digitsValue (Nat.toDigits 10 n) = n := by
  unfold digitsValue Nat.toDigits
  rw [toDigitsCore_value (n + 1) n [] (Nat.lt_succ_self n)]
  rfl

/-! ## `long` arithmetic -/

theorem wrap64_eq_self {x : Int} (h0 : 0 ≤ x) (h1 : x < 2 ^ 63) : wrap64 x = x := by
  unfold wrap64
  norm_num at h1 ⊢
  omega

theorem timestamp_exact (spec5 : timespec) (hs : 0 ≤ spec5.tv_sec) (hn : 0 ≤ spec5.tv_nsec)
    (hfit : spec5.tv_sec * 10 ^ 9 + spec5.tv_nsec < 2 ^ 63) :
    timestamp spec5 = spec5.tv_sec * 10 ^ 9 + spec5.tv_nsec := by
  unfold timestamp
  have e : (1000 * 1000 * 1000 : Int) = 10 ^ 9 := by norm_num
  rw [e]
  have h1 : 0 ≤ spec5.tv_sec * 10 ^ 9 := by positivity
  rw [wrap64_eq_self h1 (by omega)]
  exact wrap64_eq_self (by omega) hfit

theorem fmt_ld_of_nonneg {x : Int} (h : 0 ≤ x) : fmt_ld x = Nat.toDigits 10 x.toNat := by
  unfold fmt_ld
  rw [if_neg (by omega)]

/-! ## One call of the recorder -/

theorem printGCTime_opened (io : Tick) (type : List Char) (file : File)
    (h : io.fopen_ok = true) :
    printGCTime io type file =
      ⟨true, [.clock_gettime, .fopen GC_TRACE_PATH "ab+",
        .fprintf .stream (fmt_record type (timestamp io.spec5)), .fclose .stream],
        some (content file ++ taken io.write_limit (fmt_record type (timestamp io.spec5)))⟩ := by
  simp [printGCTime, fopen_ab, fprintf, h, content]

theorem printGCTime_null (io : Tick) (type : List Char) (file : File)
    (h : io.fopen_ok = false) :
    printGCTime io type file =
      ⟨false, [.clock_gettime, .fopen GC_TRACE_PATH "ab+",
        .fprintf .NULL (fmt_record type (timestamp io.spec5))], file⟩ := by
  simp [printGCTime, fopen_ab, fprintf, h]

theorem deliver_eq (h : Handler) (io : Tick) (file : File) :
    deliver h io file = printGCTime io h.label file := by
  cases h <;> rfl

theorem written_printGCTime (io : Tick) (type : List Char) (file : File) :
    written (printGCTime io type file).calls = [fmt_record type (timestamp io.spec5)] := by
  cases h : io.fopen_ok
  · rw [printGCTime_null io type file h]; rfl
  · rw [printGCTime_opened io type file h]; rfl

/-! ## Line format and timestamps -/

/-- C2, as stated, fails: the reading `tv_sec = 9223372037`, `tv_nsec = 0` is in the range of
the claim, `tv_sec * (1000 * 1000 * 1000)` does not fit in a `long`, and the text handed to
`fprintf` is `Start GC,-9223372036709551616` with a sign character, which is no record line. -/
theorem line_format_fails_on_overflow :
    (0 : Int) ≤ (timespec.mk 9223372037 0).tv_sec ∧ (0 : Int) ≤ (timespec.mk 9223372037 0).tv_nsec ∧
    (timespec.mk 9223372037 0).tv_nsec < 10 ^ 9 ∧
    written (garbageCollectionStart ⟨⟨9223372037, 0⟩, true, none⟩ none).calls =
      [overflowText] ∧
    ¬ IsRecordLine overflowText := by
  refine ⟨by decide, by decide, by decide, by rfl, ?_⟩
  rintro ⟨label, ds, hl, -, hd, heq⟩
  rcases hl with rfl | rfl
  · cases ds with
    | nil => simp [startLabel, overflowText] at heq
    | cons d ds =>
      have hdash : d = '-' := by
        simp [startLabel, overflowText] at heq
        exact heq.1.symm
      have := hd d (List.mem_cons_self _ _)
      rw [hdash] at this
      exact absurd this (by decide)
  · simp [overflowText, endLabel] at heq

/-- C2 (amended): for every clock reading with `tv_sec >= 0`, `0 <= tv_nsec < 10^9` whose
nanosecond count `tv_sec * 10^9 + tv_nsec` fits in a signed 64-bit `long`, and whatever `fopen`
returns, the text that `printGCTime` hands to `fprintf` in a call of `garbageCollectionStart`
(resp. `garbageCollectionFinish`) is exactly one record line: the label `Start GC` (resp.
`End GC`), a comma, one or more decimal digits and a newline, the digits being the decimal
writing of the `%ld` argument, which is `tv_sec * 10^9 + tv_nsec`. -/
theorem line_format (io : Tick) (file : File)
    (hs : 0 ≤ io.spec5.tv_sec) (hn : 0 ≤ io.spec5.tv_nsec) (hn9 : io.spec5.tv_nsec < 10 ^ 9)
    (hfit : io.spec5.tv_sec * 10 ^ 9 + io.spec5.tv_nsec < 2 ^ 63) :
    ∃ ds : List Char, ds ≠ [] ∧ (∀ c ∈ ds, c.isDigit = true) ∧
      (digitsValue ds : Int) = timestamp io.spec5 ∧
      timestamp io.spec5 = io.spec5.tv_sec * 10 ^ 9 + io.spec5.tv_nsec ∧
      written (garbageCollectionStart io file).calls = [startLabel ++ ',' :: ds ++ ['\n']] ∧
      written (garbageCollectionFinish io file).calls = [endLabel ++ ',' :: ds ++ ['\n']] ∧
      IsRecordLine (startLabel ++ ',' :: ds ++ ['\n']) ∧
      IsRecordLine (endLabel ++ ',' :: ds ++ ['\n']) := by
  have hex := timestamp_exact io.spec5 hs hn hfit
  have h0 : 0 ≤ timestamp io.spec5 := by rw [hex]; positivity
  refine ⟨Nat.toDigits 10 (timestamp io.spec5).toNat, toDigits_ne_nil _, toDigits_isDigit _,
    ?_, hex, ?_, ?_, ?_, ?_⟩
  · rw [digitsValue_toDigits]; exact Int.toNat_of_nonneg h0
  · rw [garbageCollectionStart, written_printGCTime, fmt_record, fmt_ld_of_nonneg h0]
  · rw [garbageCollectionFinish, written_printGCTime, fmt_record, fmt_ld_of_nonneg h0]
  · exact ⟨startLabel, _, Or.inl rfl, toDigits_ne_nil _, toDigits_isDigit _, rfl⟩
  · exact ⟨endLabel, _, Or.inr rfl, toDigits_ne_nil _, toDigits_isDigit _, rfl⟩

theorem line_format_witness :
    ∃ ds : List Char, ds ≠ [] ∧ (∀ c ∈ ds, c.isDigit = true) ∧
      (digitsValue ds : Int) = timestamp ⟨12, 5⟩ ∧
      timestamp ⟨12, 5⟩ = (12 : Int) * 10 ^ 9 + 5 ∧
      written (garbageCollectionStart ⟨⟨12, 5⟩, true, none⟩ none).calls =
        [startLabel ++ ',' :: ds ++ ['\n']] ∧
      written (garbageCollectionFinish ⟨⟨12, 5⟩, true, none⟩ none).calls =
        [endLabel ++ ',' :: ds ++ ['\n']] ∧
      IsRecordLine (startLabel ++ ',' :: ds ++ ['\n']) ∧
      IsRecordLine (endLabel ++ ',' :: ds ++ ['\n']) :=
  line_format ⟨⟨12, 5⟩, true, none⟩ none (by decide) (by decide) (by decide) (by decide)

/-- C3: for two consecutive recorder calls whose clock readings `(s1, n1)`, `(s2, n2)` satisfy
`0 <= n1, n2 < 10^9`, `s1, s2 >= 0`, `(s1, n1) <= (s2, n2)` lexicographically and
`s2 * 10^9 + n2` fits in a signed 64-bit integer, the texts handed to `fprintf` are
`label,digits\n` where the digits of each call read back as the exact nanosecond count of its
reading, and the value of the later call is at least the value of the earlier one. -/
theorem timestamps_monotone (h1 h2 : Handler) (io1 io2 : Tick) (file : File)
    (hs1 : 0 ≤ io1.spec5.tv_sec) (hs2 : 0 ≤ io2.spec5.tv_sec)
    (hn1 : 0 ≤ io1.spec5.tv_nsec) (hn1' : io1.spec5.tv_nsec < 10 ^ 9)
    (hn2 : 0 ≤ io2.spec5.tv_nsec) (hn2' : io2.spec5.tv_nsec < 10 ^ 9)
    (hle : io1.spec5.tv_sec < io2.spec5.tv_sec ∨
      (io1.spec5.tv_sec = io2.spec5.tv_sec ∧ io1.spec5.tv_nsec ≤ io2.spec5.tv_nsec))
    (hfit : io2.spec5.tv_sec * 10 ^ 9 + io2.spec5.tv_nsec < 2 ^ 63) :
    ∃ d1 d2 : List Char,
      written (deliver h1 io1 file).calls = [h1.label ++ ',' :: d1 ++ ['\n']] ∧
      written (deliver h2 io2 (deliver h1 io1 file).file).calls =
        [h2.label ++ ',' :: d2 ++ ['\n']] ∧
      (∀ c ∈ d1, c.isDigit = true) ∧ (∀ c ∈ d2, c.isDigit = true) ∧
      (digitsValue d1 : Int) = io1.spec5.tv_sec * 10 ^ 9 + io1.spec5.tv_nsec ∧
      (digitsValue d2 : Int) = io2.spec5.tv_sec * 10 ^ 9 + io2.spec5.tv_nsec ∧
      digitsValue d1 ≤ digitsValue d2 := by
  have hord : io1.spec5.tv_sec * 10 ^ 9 + io1.spec5.tv_nsec ≤
      io2.spec5.tv_sec * 10 ^ 9 + io2.spec5.tv_nsec := by
    norm_num at hn1' hn2' ⊢
    rcases hle with h | ⟨h, h'⟩ <;> omega
  have hex1 := timestamp_exact io1.spec5 hs1 hn1 (lt_of_le_of_lt hord hfit)
  have hex2 := timestamp_exact io2.spec5 hs2 hn2 hfit
  have p1 : 0 ≤ timestamp io1.spec5 := by rw [hex1]; positivity
  have p2 : 0 ≤ timestamp io2.spec5 := by rw [hex2]; positivity
  have v1 : (digitsValue (Nat.toDigits 10 (timestamp io1.spec5).toNat) : Int) =
      io1.spec5.tv_sec * 10 ^ 9 + io1.spec5.tv_nsec := by
    rw [digitsValue_toDigits, Int.toNat_of_nonneg p1, hex1]
  have v2 : (digitsValue (Nat.toDigits 10 (timestamp io2.spec5).toNat) : Int) =
      io2.spec5.tv_sec * 10 ^ 9 + io2.spec5.tv_nsec := by
    rw [digitsValue_toDigits, Int.toNat_of_nonneg p2, hex2]
  refine ⟨Nat.toDigits 10 (timestamp io1.spec5).toNat,
    Nat.toDigits 10 (timestamp io2.spec5).toNat, ?_, ?_, toDigits_isDigit _, toDigits_isDigit _,
    v1, v2, ?_⟩
  · rw [deliver_eq, written_printGCTime, fmt_record, fmt_ld_of_nonneg p1]
  · rw [deliver_eq h2, written_printGCTime, fmt_record, fmt_ld_of_nonneg p2]
  · have : (digitsValue (Nat.toDigits 10 (timestamp io1.spec5).toNat) : Int) ≤
        (digitsValue (Nat.toDigits 10 (timestamp io2.spec5).toNat) : Int) := by
      rw [v1, v2]; exact hord
    exact_mod_cast this

theorem timestamps_monotone_witness :
    ∃ d1 d2 : List Char,
      written (deliver .garbageCollectionStart ⟨⟨12, 999999999⟩, true, none⟩ none).calls =
        [Handler.label .garbageCollectionStart ++ ',' :: d1 ++ ['\n']] ∧
      written (deliver .garbageCollectionFinish ⟨⟨13, 0⟩, true, none⟩
        (deliver .garbageCollectionStart ⟨⟨12, 999999999⟩, true, none⟩ none).file).calls =
        [Handler.label .garbageCollectionFinish ++ ',' :: d2 ++ ['\n']] ∧
      (∀ c ∈ d1, c.isDigit = true) ∧ (∀ c ∈ d2, c.isDigit = true) ∧
      (digitsValue d1 : Int) = (12 : Int) * 10 ^ 9 + 999999999 ∧
      (digitsValue d2 : Int) = (13 : Int) * 10 ^ 9 + 0 ∧
      digitsValue d1 ≤ digitsValue d2 :=
  timestamps_monotone .garbageCollectionStart .garbageCollectionFinish
    ⟨⟨12, 999999999⟩, true, none⟩ ⟨⟨13, 0⟩, true, none⟩ none (by decide) (by decide) (by decide)
    (by decide) (by decide) (by decide) (Or.inl (by decide)) (by decide)

/-! ## Lines of the trace file -/

theorem lines_append_newline (l rest : List Char) (h : '\n' ∉ l) :
    lines (l ++ '\n' :: rest) = l :: lines rest := by
  induction l with
  | nil => simp [lines]
  | cons c l ih =>
    have hc : c ≠ '\n' := fun e => h (e ▸ List.mem_cons_self _ _)
    have hl : '\n' ∉ l := fun m => h (List.mem_cons_of_mem _ m)
    simp [lines, hc, ih hl]

theorem mem_fmt_ld (x : Int) : ∀ c ∈ fmt_ld x, c = '-' ∨ c.isDigit = true := by
  intro c hc
  unfold fmt_ld at hc
  split at hc
  · rcases List.mem_cons.mp hc with rfl | hc
    · exact Or.inl rfl
    · exact Or.inr (toDigits_isDigit _ c hc)
  · exact Or.inr (toDigits_isDigit _ c hc)

theorem newline_not_mem_body (h : Handler) (x : Int) : '\n' ∉ h.label ++ ',' :: fmt_ld x := by
  intro hm
  rcases List.mem_append.mp hm with hm | hm
  · cases h <;> simp [Handler.label, startLabel, endLabel] at hm
  · rcases List.mem_cons.mp hm with hm | hm
    · exact absurd hm (by decide)
    · rcases mem_fmt_ld x _ hm with e | e
      · exact absurd e (by decide)
      · exact absurd e (by decide)

theorem fmt_record_eq (h : Handler) (x : Int) :
    fmt_record h.label x = (h.label ++ ',' :: fmt_ld x) ++ ['\n'] := by
  simp [fmt_record]

theorem labelOf_body (h : Handler) (rest : List Char) :
    labelOf (h.label ++ ',' :: rest) = h.label := by
  cases h <;> simp [labelOf, Handler.label, startLabel, endLabel, List.takeWhile]

theorem lines_records (events : List (Handler × Tick)) :
    lines (records events) =
      events.map (fun e => e.1.label ++ ',' :: fmt_ld (timestamp e.2.spec5)) := by
  induction events with
  | nil => rfl
  | cons e rest ih =>
    simp only [records, List.map_cons, fmt_record_eq, List.append_assoc, List.singleton_append]
    rw [← List.append_assoc, lines_append_newline _ _ (by
      simpa using newline_not_mem_body e.1 (timestamp e.2.spec5)), ih]

/-! ## Sequences of events -/

theorem content_deliver_opened (h : Handler) (io : Tick) (file : File)
    (hopen : io.fopen_ok = true) (hwrite : io.write_limit = none) :
    (deliver h io file).returned = true ∧
      (deliver h io file).file =
        some (content file ++ fmt_record h.label (timestamp io.spec5)) := by
  rw [deliver_eq, printGCTime_opened io _ file hopen, hwrite]
  exact ⟨rfl, rfl⟩

theorem run_opened (events : List (Handler × Tick)) : ∀ file : File,
    (∀ e ∈ events, e.2.fopen_ok = true ∧ e.2.write_limit = none) →
    (run events file).1 = true ∧ content (run events file).2 = content file ++ records events := by
  induction events with
  | nil => intro file _; simp [run, records]
  | cons e rest ih =>
    intro file hopen
    obtain ⟨hret, hfile⟩ := content_deliver_opened e.1 e.2 file
      (hopen e (List.mem_cons_self _ _)).1 (hopen e (List.mem_cons_self _ _)).2
    obtain ⟨h1, h2⟩ := ih (deliver e.1 e.2 file).file
      (fun e' he' => hopen e' (List.mem_cons_of_mem _ he'))
    obtain ⟨h, io⟩ := e
    simp only [run, hret, if_true]
    refine ⟨h1, ?_⟩
    rw [h2, hfile]
    simp [content, records]

theorem content_deliver_extends (h : Handler) (io : Tick) (file : File) :
    content file <+: content (deliver h io file).file := by
  rw [deliver_eq]
  cases hopen : io.fopen_ok
  · rw [printGCTime_null io _ file hopen]
  · rw [printGCTime_opened io _ file hopen]
    exact List.prefix_append _ _

theorem content_run_extends (events : List (Handler × Tick)) : ∀ file : File,
    content file <+: content (run events file).2 := by
  induction events with
  | nil => intro file; exact List.prefix_refl _
  | cons e rest ih =>
    intro file
    obtain ⟨h, io⟩ := e
    simp only [run]
    split
    · exact (content_deliver_extends h io file).trans (ih _)
    · exact content_deliver_extends h io file

theorem content_run_append (before after : List (Handler × Tick)) : ∀ file : File,
    content (run before file).2 <+: content (run (before ++ after) file).2 := by
  induction before with
  | nil => intro file; exact content_run_extends after file
  | cons e rest ih =>
    intro file
    obtain ⟨h, io⟩ := e
    simp only [run, List.cons_append]
    split
    · exact ih _
    · exact List.prefix_refl _

theorem labels_pauses (ps : List (Tick × Tick)) : ∀ i, i < ps.length →
    ((pauses ps).map (fun e => e.1.label))[2 * i]? = some startLabel ∧
    ((pauses ps).map (fun e => e.1.label))[2 * i + 1]? = some endLabel := by
  induction ps with
  | nil => intro i hi; exact absurd hi (Nat.not_lt_zero _)
  | cons p rest ih =>
    intro i hi
    obtain ⟨s, e⟩ := p
    cases i with
    | zero => simp [pauses, Handler.label]
    | succ i =>
      have hi' : i < rest.length := by simpa using hi
      have e1 : 2 * (i + 1) = 2 * i + 1 + 1 := by omega
      have := ih i hi'
      simp only [pauses, List.map_cons, e1, List.getElem?_cons_succ]
      exact this

theorem length_pauses (ps : List (Tick × Tick)) : (pauses ps).length = 2 * ps.length := by
  induction ps with
  | nil => rfl
  | cons p rest ih =>
    obtain ⟨s, e⟩ := p
    simp only [pauses, List.length_cons, ih]
    omega

theorem fopen_ok_pauses (ps : List (Tick × Tick))
    (h : ∀ p ∈ ps, (p.1.fopen_ok = true ∧ p.1.write_limit = none) ∧
      (p.2.fopen_ok = true ∧ p.2.write_limit = none)) :
    ∀ e ∈ pauses ps, e.2.fopen_ok = true ∧ e.2.write_limit = none := by
  induction ps with
  | nil => intro e he; simp [pauses] at he
  | cons p rest ih =>
    obtain ⟨s, f⟩ := p
    intro e he
    simp only [pauses, List.mem_cons] at he
    rcases he with rfl | rfl | he
    · exact (h (s, f) (List.mem_cons_self _ _)).1
    · exact (h (s, f) (List.mem_cons_self _ _)).2
    · exact ih (fun p hp => h p (List.mem_cons_of_mem _ hp)) e he

/-! ## The paths of the attach -/

theorem attach_GetEnv_failed (host : Host) (file : File)
    (hget : host.GetEnv JVMTI_VERSION_1_0 ≠ JNI_OK) :
    Agent_OnLoad host file =
      ⟨.returned JVMTI_ERROR_UNSUPPORTED_VERSION,
        [.GetEnv JVMTI_VERSION_1_0,
          .stderr "The version of JVMTI requested (1.0) is not supported by this JVM.\n" none],
        file⟩ := by
  simp [Agent_OnLoad, hget]

theorem attach_first_calloc_failed (host : Host) (file : File)
    (hget : host.GetEnv JVMTI_VERSION_1_0 = JNI_OK) (h0 : host.calloc 0 = false) :
    Agent_OnLoad host file =
      ⟨.returned JVMTI_ERROR_OUT_OF_MEMORY,
        [.GetEnv JVMTI_VERSION_1_0, .calloc, .stderr "Unable to allocate memory\n" none],
        file⟩ := by
  simp [Agent_OnLoad, hget, h0]

theorem attach_second_calloc_failed (host : Host) (file : File)
    (hget : host.GetEnv JVMTI_VERSION_1_0 = JNI_OK) (h0 : host.calloc 0 = true)
    (h1 : host.calloc 1 = false) :
    Agent_OnLoad host file =
      ⟨.returned JVMTI_ERROR_OUT_OF_MEMORY,
        [.GetEnv JVMTI_VERSION_1_0, .calloc, .AddCapabilities ⟨1, 0⟩, .calloc,
          .stderr "Unable to allocate memory\n" none],
        file⟩ := by
  simp [Agent_OnLoad, hget, h0, h1]

theorem attach_registration_failed (host : Host) (file : File)
    (hget : host.GetEnv JVMTI_VERSION_1_0 = JNI_OK) (h0 : host.calloc 0 = true)
    (h1 : host.calloc 1 = true) (hreg : host.SetEventCallbacks agentCallbacks ≠ JNI_OK) :
    Agent_OnLoad host file =
      ⟨.exited (-1),
        callsToRegistration ++
          [.stderr "C:\tError setting event callbacks (%d)\n"
            (some (host.SetEventCallbacks agentCallbacks)), .exit (-1)],
        file⟩ := by
  unfold agentCallbacks at hreg
  simp [Agent_OnLoad, hget, h0, h1, hreg, callsToRegistration, agentCallbacks]

theorem attach_enable_start_failed (host : Host) (file : File)
    (hget : host.GetEnv JVMTI_VERSION_1_0 = JNI_OK) (h0 : host.calloc 0 = true)
    (h1 : host.calloc 1 = true) (hreg : host.SetEventCallbacks agentCallbacks = JNI_OK)
    (hstart : host.SetEventNotificationMode JVMTI_ENABLE JVMTI_EVENT_GARBAGE_COLLECTION_START
      ≠ JNI_OK) :
    Agent_OnLoad host file =
      ⟨.exited (-1),
        callsToRegistration ++
          [.SetEventNotificationMode JVMTI_ENABLE JVMTI_EVENT_GARBAGE_COLLECTION_START,
            .stderr
              "C:\tJVM does not have the required capabilities, JVMTI_ENABLE, JVMTI_EVENT_GARBAGE_COLLECTION_START (%d)\n"
              (some (host.SetEventNotificationMode JVMTI_ENABLE
                JVMTI_EVENT_GARBAGE_COLLECTION_START)), .exit (-1)],
        file⟩ := by
  unfold agentCallbacks at hreg
  simp [Agent_OnLoad, hget, h0, h1, hreg, hstart, callsToRegistration, agentCallbacks]

theorem attach_enable_finish_failed (host : Host) (file : File)
    (hget : host.GetEnv JVMTI_VERSION_1_0 = JNI_OK) (h0 : host.calloc 0 = true)
    (h1 : host.calloc 1 = true) (hreg : host.SetEventCallbacks agentCallbacks = JNI_OK)
    (hstart : host.SetEventNotificationMode JVMTI_ENABLE JVMTI_EVENT_GARBAGE_COLLECTION_START
      = JNI_OK)
    (hfinish : host.SetEventNotificationMode JVMTI_ENABLE JVMTI_EVENT_GARBAGE_COLLECTION_FINISH
      ≠ JNI_OK) :
    Agent_OnLoad host file =
      ⟨.exited (-1),
        callsToRegistration ++
          [.SetEventNotificationMode JVMTI_ENABLE JVMTI_EVENT_GARBAGE_COLLECTION_START,
            .SetEventNotificationMode JVMTI_ENABLE JVMTI_EVENT_GARBAGE_COLLECTION_FINISH,
            .stderr
              "C:\tJVM does not have the required capabilities, JVMTI_ENABLE, JVMTI_EVENT_GARBAGE_COLLECTION_FINISH (%d)\n"
              (some (host.SetEventNotificationMode JVMTI_ENABLE
                JVMTI_EVENT_GARBAGE_COLLECTION_FINISH)), .exit (-1)],
        file⟩ := by
  unfold agentCallbacks at hreg
  simp [Agent_OnLoad, hget, h0, h1, hreg, hstart, hfinish, callsToRegistration, agentCallbacks]

theorem attach_completed (host : Host) (file : File)
    (hget : host.GetEnv JVMTI_VERSION_1_0 = JNI_OK) (h0 : host.calloc 0 = true)
    (h1 : host.calloc 1 = true) (hreg : host.SetEventCallbacks agentCallbacks = JNI_OK)
    (hstart : host.SetEventNotificationMode JVMTI_ENABLE JVMTI_EVENT_GARBAGE_COLLECTION_START
      = JNI_OK)
    (hfinish : host.SetEventNotificationMode JVMTI_ENABLE JVMTI_EVENT_GARBAGE_COLLECTION_FINISH
      = JNI_OK) :
    Agent_OnLoad host file =
      ⟨.returned JVMTI_ERROR_NONE,
        callsToRegistration ++
          [.SetEventNotificationMode JVMTI_ENABLE JVMTI_EVENT_GARBAGE_COLLECTION_START,
            .SetEventNotificationMode JVMTI_ENABLE JVMTI_EVENT_GARBAGE_COLLECTION_FINISH,
            .free, .free, .remove GC_TRACE_PATH],
        (remove host.remove_ok file).2⟩ := by
  unfold agentCallbacks at hreg
  simp [Agent_OnLoad, hget, h0, h1, hreg, hstart, hfinish, callsToRegistration, agentCallbacks]

theorem attach_outcome_file (host : Host) (file file' : File) :
    (Agent_OnLoad host file).outcome = (Agent_OnLoad host file').outcome := by
  unfold Agent_OnLoad
  simp only []
  split_ifs <;> rfl

theorem attach_success_file (host : Host) (file : File)
    (hok : (Agent_OnLoad host file).outcome = .returned JVMTI_ERROR_NONE) :
    (Agent_OnLoad host file).file = (remove host.remove_ok file).2 := by
  unfold Agent_OnLoad at hok ⊢
  simp only [] at hok ⊢
  split_ifs at hok ⊢ <;>
    first
    | rfl
    | exact absurd hok (by simp [JVMTI_ERROR_NONE, JVMTI_ERROR_UNSUPPORTED_VERSION,
        JVMTI_ERROR_OUT_OF_MEMORY])

/-! ## Properties of the attach -/

/-- C5: when `GetEnv` for `JVMTI_VERSION_1_0` returns a value other than `JNI_OK`,
`Agent_OnLoad` returns `JVMTI_ERROR_UNSUPPORTED_VERSION`, a status different from success `0`
and from `JVMTI_ERROR_OUT_OF_MEMORY`; it makes two calls only, `GetEnv` and the message on the
standard error stream: no `exit`, no `AddCapabilities`, `SetEventCallbacks` or
`SetEventNotificationMode`, no call on the trace file, which is left as it was. -/
theorem attach_unsupported_version (host : Host) (file : File)
    (hget : host.GetEnv JVMTI_VERSION_1_0 ≠ JNI_OK) :
    (Agent_OnLoad host file).outcome = .returned JVMTI_ERROR_UNSUPPORTED_VERSION ∧
    JVMTI_ERROR_UNSUPPORTED_VERSION ≠ 0 ∧
    JVMTI_ERROR_UNSUPPORTED_VERSION ≠ JVMTI_ERROR_NONE ∧
    JVMTI_ERROR_UNSUPPORTED_VERSION ≠ JVMTI_ERROR_OUT_OF_MEMORY ∧
    (Agent_OnLoad host file).calls =
      [.GetEnv JVMTI_VERSION_1_0,
        .stderr "The version of JVMTI requested (1.0) is not supported by this JVM.\n" none] ∧
    (Agent_OnLoad host file).calls.any Call.isHostCall = false ∧
    (Agent_OnLoad host file).calls.any Call.touchesFile = false ∧
    (Agent_OnLoad host file).file = file := by
  rw [attach_GetEnv_failed host file hget]
  exact ⟨rfl, by decide, by decide, by decide, rfl, rfl, rfl, rfl⟩

theorem attach_unsupported_version_witness :
    (Agent_OnLoad (hostWith (-3) true true 0 0 0 0 true) (some ['o', 'l', 'd'])).outcome =
      .returned JVMTI_ERROR_UNSUPPORTED_VERSION ∧
    JVMTI_ERROR_UNSUPPORTED_VERSION ≠ 0 ∧
    JVMTI_ERROR_UNSUPPORTED_VERSION ≠ JVMTI_ERROR_NONE ∧
    JVMTI_ERROR_UNSUPPORTED_VERSION ≠ JVMTI_ERROR_OUT_OF_MEMORY ∧
    (Agent_OnLoad (hostWith (-3) true true 0 0 0 0 true) (some ['o', 'l', 'd'])).calls =
      [.GetEnv JVMTI_VERSION_1_0,
        .stderr "The version of JVMTI requested (1.0) is not supported by this JVM.\n" none] ∧
    (Agent_OnLoad (hostWith (-3) true true 0 0 0 0 true) (some ['o', 'l', 'd'])).calls.any
      Call.isHostCall = false ∧
    (Agent_OnLoad (hostWith (-3) true true 0 0 0 0 true) (some ['o', 'l', 'd'])).calls.any
      Call.touchesFile = false ∧
    (Agent_OnLoad (hostWith (-3) true true 0 0 0 0 true) (some ['o', 'l', 'd'])).file =
      some ['o', 'l', 'd'] :=
  attach_unsupported_version (hostWith (-3) true true 0 0 0 0 true) (some ['o', 'l', 'd'])
    (by decide)

/-- C6 fails on the code: with `GetEnv` and both allocations succeeding, `AddCapabilities`
returning the error 98 and the later host calls succeeding, `Agent_OnLoad` does not end the
process: it goes on to `SetEventCallbacks` and both `SetEventNotificationMode` calls, removes
the trace file and returns `JVMTI_ERROR_NONE`. The status returned by `AddCapabilities` has no
effect at all: the test placed before the call reads the status of `GetEnv`. -/
theorem attach_ignores_AddCapabilities :
    Agent_OnLoad (hostWith 0 true true 98 0 0 0 true) none =
      ⟨.returned JVMTI_ERROR_NONE,
        [.GetEnv JVMTI_VERSION_1_0, .calloc, .AddCapabilities ⟨1, 0⟩, .calloc,
          .SetEventCallbacks agentCallbacks,
          .SetEventNotificationMode JVMTI_ENABLE JVMTI_EVENT_GARBAGE_COLLECTION_START,
          .SetEventNotificationMode JVMTI_ENABLE JVMTI_EVENT_GARBAGE_COLLECTION_FINISH,
          .free, .free, .remove GC_TRACE_PATH], none⟩ ∧
    (98 : Int) ≠ JNI_OK ∧
    ∀ (host : Host) (status : Int) (file : File),
      Agent_OnLoad { host with AddCapabilities := fun _ => status } file =
        Agent_OnLoad host file := by
  refine ⟨by rfl, by decide, ?_⟩
  intro host status file
  rfl

/-- C8: in an attach that reaches `SetEventCallbacks` (`GetEnv` and both allocations succeed),
if `SetEventCallbacks`, the enabling of the START event or the enabling of the FINISH event
returns a value other than `JNI_OK`, `Agent_OnLoad` ends the process with `exit(-1)` (its last
call), returns no status, makes no call on the trace file and leaves it as it was; when
`SetEventCallbacks` fails no event is enabled, and when the enabling of START fails the
enabling of FINISH is not called. -/
theorem attach_rejection_is_fatal (host : Host) (file : File)
    (hget : host.GetEnv JVMTI_VERSION_1_0 = JNI_OK) (h0 : host.calloc 0 = true)
    (h1 : host.calloc 1 = true)
    (hfail : host.SetEventCallbacks agentCallbacks ≠ JNI_OK ∨
      host.SetEventNotificationMode JVMTI_ENABLE JVMTI_EVENT_GARBAGE_COLLECTION_START ≠ JNI_OK ∨
      host.SetEventNotificationMode JVMTI_ENABLE JVMTI_EVENT_GARBAGE_COLLECTION_FINISH ≠ JNI_OK) :
    (Agent_OnLoad host file).outcome = .exited (-1) ∧
    (Agent_OnLoad host file).calls.getLast? = some (.exit (-1)) ∧
    (Agent_OnLoad host file).calls.any Call.touchesFile = false ∧
    (Agent_OnLoad host file).file = file ∧
    (host.SetEventCallbacks agentCallbacks ≠ JNI_OK →
      (Agent_OnLoad host file).calls.any Call.isEnable = false) ∧
    (host.SetEventCallbacks agentCallbacks = JNI_OK →
      host.SetEventNotificationMode JVMTI_ENABLE JVMTI_EVENT_GARBAGE_COLLECTION_START ≠ JNI_OK →
      (Agent_OnLoad host file).calls.filter Call.isEnable =
        [.SetEventNotificationMode JVMTI_ENABLE JVMTI_EVENT_GARBAGE_COLLECTION_START]) := by
  by_cases hreg : host.SetEventCallbacks agentCallbacks = JNI_OK
  · by_cases hstart :
        host.SetEventNotificationMode JVMTI_ENABLE JVMTI_EVENT_GARBAGE_COLLECTION_START = JNI_OK
    · have hfinish :
          host.SetEventNotificationMode JVMTI_ENABLE JVMTI_EVENT_GARBAGE_COLLECTION_FINISH
            ≠ JNI_OK := by
        rcases hfail with h | h | h
        · exact absurd hreg h
        · exact absurd hstart h
        · exact h
      rw [attach_enable_finish_failed host file hget h0 h1 hreg hstart hfinish]
      exact ⟨rfl, rfl, rfl, rfl, fun h => absurd hreg h, fun _ h => absurd hstart h⟩
    · rw [attach_enable_start_failed host file hget h0 h1 hreg hstart]
      exact ⟨rfl, rfl, rfl, rfl, fun h => absurd hreg h, fun _ _ => rfl⟩
  · rw [attach_registration_failed host file hget h0 h1 hreg]
    exact ⟨rfl, rfl, rfl, rfl, fun _ => rfl, fun h => absurd h hreg⟩

theorem attach_rejection_is_fatal_witness :
    (Agent_OnLoad (hostWith 0 true true 0 0 0 99 true) (some ['o', 'l', 'd'])).outcome =
      .exited (-1) ∧
    (Agent_OnLoad (hostWith 0 true true 0 0 0 99 true) (some ['o', 'l', 'd'])).calls.getLast? =
      some (.exit (-1)) ∧
    (Agent_OnLoad (hostWith 0 true true 0 0 0 99 true) (some ['o', 'l', 'd'])).calls.any
      Call.touchesFile = false ∧
    (Agent_OnLoad (hostWith 0 true true 0 0 0 99 true) (some ['o', 'l', 'd'])).file =
      some ['o', 'l', 'd'] ∧
    ((hostWith 0 true true 0 0 0 99 true).SetEventCallbacks agentCallbacks ≠ JNI_OK →
      (Agent_OnLoad (hostWith 0 true true 0 0 0 99 true) (some ['o', 'l', 'd'])).calls.any
        Call.isEnable = false) ∧
    ((hostWith 0 true true 0 0 0 99 true).SetEventCallbacks agentCallbacks = JNI_OK →
      (hostWith 0 true true 0 0 0 99 true).SetEventNotificationMode JVMTI_ENABLE
        JVMTI_EVENT_GARBAGE_COLLECTION_START ≠ JNI_OK →
      (Agent_OnLoad (hostWith 0 true true 0 0 0 99 true) (some ['o', 'l', 'd'])).calls.filter
        Call.isEnable =
        [.SetEventNotificationMode JVMTI_ENABLE JVMTI_EVENT_GARBAGE_COLLECTION_START]) :=
  attach_rejection_is_fatal (hostWith 0 true true 0 0 0 99 true) (some ['o', 'l', 'd'])
    (by decide) (by decide) (by decide) (Or.inr (Or.inr (by decide)))

/-- C9: when `GetEnv` succeeds and an allocation of `Agent_OnLoad` fails (the capability
descriptor, or the callback table), `Agent_OnLoad` returns `JVMTI_ERROR_OUT_OF_MEMORY` to the
host: it does not call `exit`, it has made no `SetEventCallbacks` and no
`SetEventNotificationMode` call, no call on the trace file, and the file is as it was. -/
theorem attach_out_of_memory (host : Host) (file : File)
    (hget : host.GetEnv JVMTI_VERSION_1_0 = JNI_OK)
    (halloc : host.calloc 0 = false ∨ host.calloc 1 = false) :
    (Agent_OnLoad host file).outcome = .returned JVMTI_ERROR_OUT_OF_MEMORY ∧
    (Agent_OnLoad host file).calls.any Call.instruments = false ∧
    (Agent_OnLoad host file).calls.any Call.touchesFile = false ∧
    (Agent_OnLoad host file).calls.getLast? =
      some (.stderr "Unable to allocate memory\n" none) ∧
    (Agent_OnLoad host file).file = file := by
  cases h0 : host.calloc 0
  · rw [attach_first_calloc_failed host file hget h0]
    exact ⟨rfl, rfl, rfl, rfl, rfl⟩
  · have h1 : host.calloc 1 = false := by
      rcases halloc with h | h
      · rw [h0] at h; exact absurd h (by decide)
      · exact h
    rw [attach_second_calloc_failed host file hget h0 h1]
    exact ⟨rfl, rfl, rfl, rfl, rfl⟩

theorem attach_out_of_memory_witness :
    (Agent_OnLoad (hostWith 0 true false 0 0 0 0 true) (some ['o', 'l', 'd'])).outcome =
      .returned JVMTI_ERROR_OUT_OF_MEMORY ∧
    (Agent_OnLoad (hostWith 0 true false 0 0 0 0 true) (some ['o', 'l', 'd'])).calls.any
      Call.instruments = false ∧
    (Agent_OnLoad (hostWith 0 true false 0 0 0 0 true) (some ['o', 'l', 'd'])).calls.any
      Call.touchesFile = false ∧
    (Agent_OnLoad (hostWith 0 true false 0 0 0 0 true) (some ['o', 'l', 'd'])).calls.getLast? =
      some (.stderr "Unable to allocate memory\n" none) ∧
    (Agent_OnLoad (hostWith 0 true false 0 0 0 0 true) (some ['o', 'l', 'd'])).file =
      some ['o', 'l', 'd'] :=
  attach_out_of_memory (hostWith 0 true false 0 0 0 0 true) (some ['o', 'l', 'd'])
    (by decide) (Or.inr (by decide))

/-- C4, as stated, fails: with every host call and allocation succeeding and a file system that
refuses to remove the existing trace file, `Agent_OnLoad` returns `JVMTI_ERROR_NONE` (the result
of `remove` is not read), the file still holds the record of the earlier run, and the first
record of the current run is written after it. -/
theorem attach_keeps_log_when_remove_fails :
    (Agent_OnLoad (hostWith 0 true true 0 0 0 0 false) (some priorLog)).outcome =
      .returned JVMTI_ERROR_NONE ∧
    (Agent_OnLoad (hostWith 0 true true 0 0 0 0 false) (some priorLog)).file = some priorLog ∧
    (garbageCollectionStart ⟨⟨12, 5⟩, true, none⟩
      (Agent_OnLoad (hostWith 0 true true 0 0 0 0 false) (some priorLog)).file).file =
      some (priorLog ++ ['S', 't', 'a', 'r', 't', ' ', 'G', 'C', ',', '1', '2', '0', '0', '0',
        '0', '0', '0', '0', '0', '5', '\n']) := by
  refine ⟨by rfl, by rfl, by rfl⟩

/-- C4 (amended): for every prior state of the trace file (absent included), whenever
`Agent_OnLoad` returns `JVMTI_ERROR_NONE` and the file system does not refuse the removal of an
existing file, the trace file is absent afterwards, so that the log written by any later
sequence of events is the one written starting from no file; and the way the attach ends does
not depend on the prior state of the file (absent or not) nor on the result of `remove`. -/
theorem attach_resets_log (host : Host) (prior : File) (events : List (Handler × Tick))
    (hok : (Agent_OnLoad host prior).outcome = .returned JVMTI_ERROR_NONE)
    (hremove : host.remove_ok = true) :
    (Agent_OnLoad host prior).file = none ∧
    run events (Agent_OnLoad host prior).file = run events none ∧
    (Agent_OnLoad host none).outcome = (Agent_OnLoad host prior).outcome ∧
    (Agent_OnLoad { host with remove_ok := false } prior).outcome =
      (Agent_OnLoad host prior).outcome := by
  have hfile : (Agent_OnLoad host prior).file = none := by
    rw [attach_success_file host prior hok, hremove]
    cases prior <;> rfl
  refine ⟨hfile, by rw [hfile], attach_outcome_file host none prior, ?_⟩
  unfold Agent_OnLoad
  simp only []
  split_ifs <;> rfl

theorem attach_resets_log_witness :
    (Agent_OnLoad (hostWith 0 true true 0 0 0 0 true) (some priorLog)).file = none ∧
    run (pauses twoPauses) (Agent_OnLoad (hostWith 0 true true 0 0 0 0 true) (some priorLog)).file
      = run (pauses twoPauses) none ∧
    (Agent_OnLoad (hostWith 0 true true 0 0 0 0 true) none).outcome =
      (Agent_OnLoad (hostWith 0 true true 0 0 0 0 true) (some priorLog)).outcome ∧
    (Agent_OnLoad { hostWith 0 true true 0 0 0 0 true with remove_ok := false }
      (some priorLog)).outcome =
      (Agent_OnLoad (hostWith 0 true true 0 0 0 0 true) (some priorLog)).outcome :=
  attach_resets_log (hostWith 0 true true 0 0 0 0 true) (some priorLog) (pauses twoPauses)
    (by rfl) (by rfl)

/-! ## Properties of the recorder -/

/-- C1, as stated, fails: after an attach that returned `JVMTI_ERROR_NONE` and left the trace
file absent, in one pause where both `fopen` succeed and the file system takes only the first
11 bytes of the start record (the results of `fprintf` and `fclose` are not read), both calls
return and the log holds one line, `Start GC,12End GC,12000000007`, not two. -/
theorem pauses_log_fails_on_cut_write :
    (Agent_OnLoad (hostWith 0 true true 0 0 0 0 true) (some priorLog)).outcome =
      .returned JVMTI_ERROR_NONE ∧
    (Agent_OnLoad (hostWith 0 true true 0 0 0 0 true) (some priorLog)).file = none ∧
    (∀ p ∈ cutPause, p.1.fopen_ok = true ∧ p.2.fopen_ok = true) ∧
    (run (pauses cutPause)
      (Agent_OnLoad (hostWith 0 true true 0 0 0 0 true) (some priorLog)).file).1 = true ∧
    lines (content (run (pauses cutPause)
      (Agent_OnLoad (hostWith 0 true true 0 0 0 0 true) (some priorLog)).file).2) =
      [['S', 't', 'a', 'r', 't', ' ', 'G', 'C', ',', '1', '2', 'E', 'n', 'd', ' ', 'G', 'C', ',',
        '1', '2', '0', '0', '0', '0', '0', '0', '0', '0', '7']] ∧
    (lines (content (run (pauses cutPause)
      (Agent_OnLoad (hostWith 0 true true 0 0 0 0 true) (some priorLog)).file).2)).length ≠
      2 * cutPause.length := by
  refine ⟨by rfl, by rfl, by decide, by rfl, by rfl, by decide⟩

/-- C1 (amended): starting from the file state left by an attach that returned
`JVMTI_ERROR_NONE` with the trace file absent, a single-threaded host that for each of N pauses
calls `garbageCollectionStart` then `garbageCollectionFinish`, every `fopen` succeeding and
every write completing, sees every call return and leaves a log of exactly 2N lines, where for
every i < N line 2i has the label `Start GC` and line 2i+1 has the label `End GC`. -/
theorem pauses_log (host : Host) (prior : File) (ps : List (Tick × Tick))
    (hattach : (Agent_OnLoad host prior).outcome = .returned JVMTI_ERROR_NONE)
    (habsent : (Agent_OnLoad host prior).file = none)
    (hopen : ∀ p ∈ ps, p.1.fopen_ok = true ∧ p.2.fopen_ok = true)
    (hwrite : ∀ p ∈ ps, p.1.write_limit = none ∧ p.2.write_limit = none) :
    (run (pauses ps) (Agent_OnLoad host prior).file).1 = true ∧
    (lines (content (run (pauses ps) (Agent_OnLoad host prior).file).2)).length
      = 2 * ps.length ∧
    ∀ i, i < ps.length →
      ((lines (content (run (pauses ps) (Agent_OnLoad host prior).file).2))[2 * i]?).map labelOf
        = some startLabel ∧
      ((lines (content (run (pauses ps) (Agent_OnLoad host prior).file).2))[2 * i + 1]?).map
        labelOf = some endLabel := by
  obtain ⟨hret, hcontent⟩ := run_opened (pauses ps) (Agent_OnLoad host prior).file
    (fopen_ok_pauses ps (fun p hp =>
      ⟨⟨(hopen p hp).1, (hwrite p hp).1⟩, ⟨(hopen p hp).2, (hwrite p hp).2⟩⟩))
  have hlines : lines (content (run (pauses ps) (Agent_OnLoad host prior).file).2) =
      (pauses ps).map (fun e => e.1.label ++ ',' :: fmt_ld (timestamp e.2.spec5)) := by
    rw [hcontent, habsent]
    simp only [content, Option.getD_none, List.nil_append]
    exact lines_records _
  have hlabels : ∀ k : Nat,
      ((lines (content (run (pauses ps) (Agent_OnLoad host prior).file).2))[k]?).map labelOf =
        ((pauses ps).map (fun e => e.1.label))[k]? := by
    intro k
    rw [hlines]
    simp only [List.getElem?_map, Option.map_map]
    congr 1
    funext e
    exact labelOf_body e.1 _
  refine ⟨hret, by rw [hlines, List.length_map, length_pauses], ?_⟩
  intro i hi
  rw [hlabels, hlabels]
  exact labels_pauses ps i hi

theorem pauses_log_witness :
    (run (pauses twoPauses)
      (Agent_OnLoad (hostWith 0 true true 0 0 0 0 true) (some priorLog)).file).1 = true ∧
    (lines (content (run (pauses twoPauses)
      (Agent_OnLoad (hostWith 0 true true 0 0 0 0 true) (some priorLog)).file).2)).length
      = 2 * twoPauses.length ∧
    ∀ i, i < twoPauses.length →
      ((lines (content (run (pauses twoPauses)
        (Agent_OnLoad (hostWith 0 true true 0 0 0 0 true) (some priorLog)).file).2))[2 * i]?).map
        labelOf = some startLabel ∧
      ((lines (content (run (pauses twoPauses)
        (Agent_OnLoad (hostWith 0 true true 0 0 0 0 true) (some priorLog)).file).2))[2 * i
          + 1]?).map labelOf = some endLabel :=
  pauses_log (hostWith 0 true true 0 0 0 0 true) (some priorLog) twoPauses (by rfl) (by rfl)
    (by decide) (by decide)

/-- C7 fails on the code: in a recorder call in which `fopen` returns the null pointer,
`printGCTime` does not test the result; the call made after `fopen` is `fprintf` on the null
stream with the formatted record, and the call does not return to the host. (No `fclose` is
reached and the trace file is left as it was.) -/
theorem recorder_uses_null_stream (h : Handler) (io : Tick) (file : File)
    (hfail : io.fopen_ok = false) :
    (deliver h io file).returned = false ∧
    (deliver h io file).calls =
      [.clock_gettime, .fopen GC_TRACE_PATH "ab+",
        .fprintf .NULL (fmt_record h.label (timestamp io.spec5))] ∧
    (deliver h io file).file = file := by
  rw [deliver_eq, printGCTime_null io _ file hfail]
  exact ⟨rfl, rfl, rfl⟩

theorem recorder_uses_null_stream_witness :
    (deliver .garbageCollectionStart ⟨⟨12, 5⟩, false, none⟩ none).returned = false ∧
    (deliver .garbageCollectionStart ⟨⟨12, 5⟩, false, none⟩ none).calls =
      [.clock_gettime, .fopen GC_TRACE_PATH "ab+",
        .fprintf .NULL (fmt_record (Handler.label .garbageCollectionStart)
          (timestamp (Tick.mk ⟨12, 5⟩ false none).spec5))] ∧
    (deliver .garbageCollectionStart ⟨⟨12, 5⟩, false, none⟩ none).file = none :=
  recorder_uses_null_stream .garbageCollectionStart ⟨⟨12, 5⟩, false, none⟩ none rfl

/-- C10, as stated, fails: in a finish call on a file holding `priorLog`, with `fopen`
succeeding and the file system refusing the write (the results of `fprintf` and `fclose` are
not read), the call returns and the file is `priorLog` as before: it is not the former content
followed by a new line, whatever the line. -/
theorem log_unchanged_on_refused_write :
    (Tick.mk ⟨12, 7⟩ true (some 0)).fopen_ok = true ∧
    (deliver .garbageCollectionFinish ⟨⟨12, 7⟩, true, some 0⟩ (some priorLog)).returned = true ∧
    (deliver .garbageCollectionFinish ⟨⟨12, 7⟩, true, some 0⟩ (some priorLog)).file =
      some priorLog ∧
    ¬ ∃ line : List Char,
      (deliver .garbageCollectionFinish ⟨⟨12, 7⟩, true, some 0⟩ (some priorLog)).file =
        some (content (some priorLog) ++ line ++ ['\n']) := by
  have hfile : (deliver .garbageCollectionFinish ⟨⟨12, 7⟩, true, some 0⟩ (some priorLog)).file =
      some priorLog := by rfl
  refine ⟨rfl, by rfl, hfile, ?_⟩
  rintro ⟨line, h⟩
  rw [hfile] at h
  simp [content] at h

/-- C10 (amended): for every state of the trace file (absent and empty included), every event
kind and every clock reading, a recorder call in which `fopen` succeeds and the write completes
returns and leaves the file with its former content followed by exactly one new line (the
label, a comma and the `%ld` text, with no newline inside, then the newline); and along any
sequence of recorder calls, whatever `fopen` returns and however much of each record the file
system takes, the content at an earlier point is an initial segment of the content at every
later point. -/
theorem log_is_append_only (h : Handler) (io : Tick) (file : File)
    (before after : List (Handler × Tick)) :
    (io.fopen_ok = true → io.write_limit = none →
      (deliver h io file).returned = true ∧
      (deliver h io file).file =
        some (content file ++ (h.label ++ ',' :: fmt_ld (timestamp io.spec5)) ++ ['\n']) ∧
      '\n' ∉ h.label ++ ',' :: fmt_ld (timestamp io.spec5)) ∧
    content (run before file).2 <+: content (run (before ++ after) file).2 := by
  refine ⟨fun hopen hwrite => ?_, content_run_append before after file⟩
  obtain ⟨hret, hfile⟩ := content_deliver_opened h io file hopen hwrite
  refine ⟨hret, ?_, newline_not_mem_body h _⟩
  rw [hfile]
  simp [fmt_record]

theorem log_is_append_only_witness :
    (deliver .garbageCollectionFinish ⟨⟨12, 7⟩, true, none⟩ (some priorLog)).returned = true ∧
    (deliver .garbageCollectionFinish ⟨⟨12, 7⟩, true, none⟩ (some priorLog)).file =
      some (content (some priorLog) ++
        (Handler.label .garbageCollectionFinish ++ ',' ::
          fmt_ld (timestamp (Tick.mk ⟨12, 7⟩ true none).spec5)) ++ ['\n']) ∧
    '\n' ∉ Handler.label .garbageCollectionFinish ++ ',' ::
      fmt_ld (timestamp (Tick.mk ⟨12, 7⟩ true none).spec5) :=
  (log_is_append_only .garbageCollectionFinish ⟨⟨12, 7⟩, true, none⟩ (some priorLog)
    (pauses twoPauses)
    [(.garbageCollectionStart, ⟨⟨15, 0⟩, false, none⟩),
      (.garbageCollectionFinish, ⟨⟨16, 0⟩, true, some 3⟩)]).1 rfl rfl

end GcAgent
